import Mathlib

/-!
Shallow embedding of the outfithuv record-management backend (src/main.py).

The program keeps two collections, customers and stock entries, each stored
as one JSON file holding a mapping from a string identifier to a record body
(a JSON object).  Every endpoint loads the whole file, acts on the mapping,
and (for mutations) writes the whole file back.

Modelling choices:
  - A JSON mapping is an association list with Python-dict semantics:
    insertion order is preserved, assigning to an existing key replaces the
    value in place, assigning a fresh key appends at the end.
  - JSON serialisation is assumed faithful, so the durable file content is
    modelled as the mapping itself; a missing file is modelled as Option.none.
  - Python floats are modelled as rationals.
  - The create models dump every field (no exclude_unset), so an Optional
    field that was omitted and one explicitly sent as JSON null store the
    same null; both are modelled as none.  The update models are tri-state
    per field, Option (Option t): none means the field was not supplied,
    some none means it was supplied as JSON null (pydantic accepts null for
    an Optional field and records it as set), and some (some v) means it
    was supplied with value v.  model_dump with exclude_unset dumps exactly
    the some fields, explicit nulls included, and the merge loop stores
    them.
  - pydantic validation of a request body happens before the endpoint body
    runs; the residual constraints beyond typing (the gt=0 bounds) are the
    valid* predicates below, and the raw-body parse functions model the
    typing step itself on JSON-shaped input (unknown keys are ignored, which
    is the pydantic default).
-/

/-- Outcome of an endpoint when it does not return normally.  The first four
constructors are the HTTPException raises of the source (conflict is
status 400 with detail Customer already exists or Stock entry already exists,
notFound is status 404, invalidArgument is the status 400 raises of the sort
endpoint, validationError is the rejection of a request body by pydantic).
attributeError is an uncaught Python AttributeError escaping the handler. -/
inductive Err where
  | conflict
  | notFound
  | invalidArgument
  | validationError
  | attributeError
deriving DecidableEq, Repr

/-- JSON-shaped values appearing as fields of a request body, including
JSON null, which pydantic accepts for every Optional field. -/
inductive JVal where
  | jNull
  | jStr (s : String)
  | jInt (n : Int)
  | jNum (q : Rat)
  | jStrList (xs : List String)
deriving DecidableEq, Repr

/-- Association list lookup, first match: Python dict indexing. -/
def dget {α : Type} : List (String × α) → String → Option α
  | [], _ => none
  | (k, v) :: rest, key => if k = key then some v else dget rest key

/-- Python dict membership test (key in data). -/
def dcontains {α : Type} (m : List (String × α)) (key : String) : Bool :=
  (dget m key).isSome

/-- Python dict assignment data[key] = v: replace in place if the key is
present, otherwise append at the end. -/
def dset {α : Type} : List (String × α) → String → α → List (String × α)
  | [], key, v => [(key, v)]
  | (k, w) :: rest, key, v =>
      if k = key then (key, v) :: rest else (k, w) :: dset rest key v

/-- Python del data[key]: remove the entry with the given key. -/
def derase {α : Type} : List (String × α) → String → List (String × α)
  | [], _ => []
  | (k, w) :: rest, key => if k = key then rest else (k, w) :: derase rest key

/-- Python dict.values(): the record bodies in insertion order. -/
def dvals {α : Type} (m : List (String × α)) : List α :=
  m.map (·.2)

/-- The customer record body as stored in customers.json: the fields of the
Customer model except id (excluded on create), with date overwritten by the
server at creation time.  clothe and size are nullable because an update
that supplies JSON null for them stores that null.  price none models a
stored object carrying no number under price (the field absent in a
pre-existing file, or null merged by an update); the sort endpoint defaults
a missing price to 0 via dict.get. -/
structure CustomerRecord where
  name : Option String
  clothe : Option (List String)
  size : Option String
  price : Option Rat
  phone : Option Int
  date : String
deriving DecidableEq, Repr

/-- The Customer request model of the source (src/main.py lines 24-31). -/
structure Customer where
  id : String
  name : Option String
  clothe : List String
  size : String
  price : Rat
  phone : Option Int
  date : Option String
deriving DecidableEq, Repr

/-- The CustomerUpdate request model (src/main.py lines 33-38).  pydantic
keeps three states per field, all representable here: none means the field
was not supplied; some none means it was supplied as JSON null, which is
valid since every field is Optional and the gt=0 bound constrains only the
number branch of the nullable schema, and which model_dump with
exclude_unset does dump; some (some v) means it was supplied with value v. -/
structure CustomerUpdate where
  name : Option (Option String) := none
  clothe : Option (Option (List String)) := none
  size : Option (Option String) := none
  price : Option (Option Rat) := none
  phone : Option (Option Int) := none
deriving DecidableEq, Repr

/-- The Stock request model (src/main.py lines 40-44).  Note that it has no
id field; date defaults to the server time at validation when absent. -/
structure Stock where
  item : String
  quantity : Int
  price : Rat
  date : Option String
deriving DecidableEq, Repr

/-- The StockUpdate request model (src/main.py lines 46-49), tri-state per
field exactly as CustomerUpdate. -/
structure StockUpdate where
  item : Option (Option String) := none
  quantity : Option (Option Int) := none
  price : Option (Option Rat) := none
deriving DecidableEq, Repr

/-- The stock record body as it would be stored in stock.json; every field
is nullable since an update can supply JSON null for it. -/
structure StockRecord where
  item : Option String
  quantity : Option Int
  price : Option Rat
  date : Option String
deriving DecidableEq, Repr

/-- Residual pydantic validation of a Customer body beyond typing: the only
bound is Field(gt=0) on price.  clothe is typed List of str with no length
constraint, so any list, including the empty one, is accepted. -/
def validCustomer (c : Customer) : Bool :=
  decide (0 < c.price)

/-- Residual pydantic validation of a CustomerUpdate body: price, when
supplied with a number, must satisfy gt=0; a price supplied as JSON null
passes, because the bound applies only to the number branch of the nullable
schema; no other field is constrained. -/
def validCustomerUpdate (u : CustomerUpdate) : Bool :=
  match u.price with
  | some (some q) => decide (0 < q)
  | _ => true

/-- Residual pydantic validation of a Stock body: gt=0 on quantity and price. -/
def validStock (s : Stock) : Bool :=
  decide (0 < s.quantity) && decide (0 < s.price)

/-- Residual pydantic validation of a StockUpdate body: the gt=0 bounds
constrain only supplied numbers; explicit JSON nulls pass. -/
def validStockUpdate (u : StockUpdate) : Bool :=
  (match u.quantity with
   | some (some n) => decide (0 < n)
   | _ => true) &&
  (match u.price with
   | some (some q) => decide (0 < q)
   | _ => true)

/-- The mapping stored in customers.json. -/
abbrev CMap : Type := List (String × CustomerRecord)

/-- The mapping stored in stock.json. -/
abbrev SMap : Type := List (String × StockRecord)

/-- The durable state: the contents of customers.json and stock.json, with
none meaning the file does not exist yet. -/
structure FS where
  customers : Option CMap
  stock : Option SMap

/-- The initial durable state: neither file exists. -/
def initFS : FS := ⟨none, none⟩

/-- save_data (src/main.py lines 62-64): overwrite customers.json with the
given mapping. -/
def save_data (d : CMap) (fs : FS) : FS :=
  { fs with customers := some d }

/-- load_data (src/main.py lines 52-60): read customers.json; if the file
does not exist, create it holding an empty mapping and return the empty
mapping. -/
def load_data (fs : FS) : CMap × FS :=
  match fs.customers with
  | some d => (d, fs)
  | none => ([], save_data [] fs)

/-- save_stock_data (src/main.py lines 75-77). -/
def save_stock_data (d : SMap) (fs : FS) : FS :=
  { fs with stock := some d }

/-- load_stock_data (src/main.py lines 66-73). -/
def load_stock_data (fs : FS) : SMap × FS :=
  match fs.stock with
  | some d => (d, fs)
  | none => ([], save_stock_data [] fs)

/-- GET /view (src/main.py lines 90-93): return the whole customer mapping. -/
def view (fs : FS) : CMap × FS :=
  load_data fs

/-- GET /customer/{customer_id} (src/main.py lines 96-101). -/
def view_customer (fs : FS) (customer_id : String) : Except Err CustomerRecord × FS :=
  let p := load_data fs
  match dget p.1 customer_id with
  | some r => (.ok r, p.2)
  | none => (.error .notFound, p.2)

/-- The sort key of the sort endpoint: x.get(sort_by, 0) for sort_by = price,
so a record without a price sorts as 0. -/
def priceKey (r : CustomerRecord) : Rat :=
  r.price.getD 0

/-- Ascending comparison on the sort key. -/
def ascRel (a b : CustomerRecord) : Prop :=
  priceKey a ≤ priceKey b

/-- Descending comparison on the sort key (Python sorted with reverse=True is
the stable sort by the reversed comparison). -/
def descRel (a b : CustomerRecord) : Prop :=
  priceKey b ≤ priceKey a

instance : DecidableRel ascRel :=
  fun a b => inferInstanceAs (Decidable (priceKey a ≤ priceKey b))

instance : DecidableRel descRel :=
  fun a b => inferInstanceAs (Decidable (priceKey b ≤ priceKey a))

/-- Python sorted(values, key, reverse) is a stable sort; a stable sort by a
key is uniquely determined, and stable insertion sort realises it. -/
def sortValues (ord : String) (l : List CustomerRecord) : List CustomerRecord :=
  if ord = "desc" then List.insertionSort descRel l
  else List.insertionSort ascRel l

/-- GET /sort (src/main.py lines 104-119): reject a sort field other than
price and an order other than asc or desc with status 400, otherwise return
the record bodies sorted by price. -/
def sort_customer (fs : FS) (sort_by : String) (ord : String) :
    Except Err (List CustomerRecord) × FS :=
  if sort_by ∉ ["price"] then (.error .invalidArgument, fs)
  else if ord ∉ ["asc", "desc"] then (.error .invalidArgument, fs)
  else
    let p := load_data fs
    (.ok (sortValues ord (dvals p.1)), p.2)

/-- The record body stored by create: customer.model_dump(exclude=[id]) with
date then overwritten by the current server time. -/
def customerToRecord (c : Customer) (now : String) : CustomerRecord :=
  { name := c.name, clothe := some c.clothe, size := some c.size,
    price := some c.price, phone := c.phone, date := now }

/-- POST /create (src/main.py lines 122-139): reject a duplicate id with
status 400, otherwise store the body (id excluded, date set to now) and save. -/
def create_customer (fs : FS) (c : Customer) (now : String) : Except Err String × FS :=
  let p := load_data fs
  if dcontains p.1 c.id then (.error .conflict, p.2)
  else (.ok "CUSTOMER CREATED SUCCESSFULLY!!",
        save_data (dset p.1 c.id (customerToRecord c now)) p.2)

/-- The merge loop of the update endpoints: every field dumped by
model_dump(exclude_unset=True), that is every supplied field, overwrites the
stored field of the same name; the other stored fields are untouched. -/
def mergeCustomer (r : CustomerRecord) (u : CustomerUpdate) : CustomerRecord :=
  { name := match u.name with | some v => v | none => r.name,
    clothe := match u.clothe with | some v => v | none => r.clothe,
    size := match u.size with | some v => v | none => r.size,
    price := match u.price with | some v => v | none => r.price,
    phone := match u.phone with | some v => v | none => r.phone,
    date := r.date }

/-- PUT /edit/{customer_id} (src/main.py lines 142-161). -/
def update_customer (fs : FS) (customer_id : String) (u : CustomerUpdate) :
    Except Err String × FS :=
  let p := load_data fs
  match dget p.1 customer_id with
  | none => (.error .notFound, p.2)
  | some existing =>
      (.ok "Customer updated successfully",
       save_data (dset p.1 customer_id (mergeCustomer existing u)) p.2)

/-- DELETE /delete/{customer_id} (src/main.py lines 164-175). -/
def delete_customer (fs : FS) (customer_id : String) : Except Err String × FS :=
  let p := load_data fs
  if dcontains p.1 customer_id then
    (.ok "Customer deleted successfully", save_data (derase p.1 customer_id) p.2)
  else (.error .notFound, p.2)

/-- GET /stock/view (src/main.py lines 180-183). -/
def view_stock (fs : FS) : SMap × FS :=
  load_stock_data fs

/-- GET /stock/{stock_id} (src/main.py lines 186-191). -/
def view_stock_entry (fs : FS) (stock_id : String) : Except Err StockRecord × FS :=
  let p := load_stock_data fs
  match dget p.1 stock_id with
  | some r => (.ok r, p.2)
  | none => (.error .notFound, p.2)

/-- POST /stock/create (src/main.py lines 194-204).  The source reads
stock.id after loading the file, but the Stock model declares no id field,
so every request that reaches the handler raises AttributeError before the
duplicate check; nothing is ever inserted or saved. -/
def create_stock (fs : FS) (s : Stock) : Except Err String × FS :=
  let p := load_stock_data fs
  (.error .attributeError, p.2)

/-- The merge loop of the stock update endpoint. -/
def mergeStock (r : StockRecord) (u : StockUpdate) : StockRecord :=
  { item := match u.item with | some v => v | none => r.item,
    quantity := match u.quantity with | some v => v | none => r.quantity,
    price := match u.price with | some v => v | none => r.price,
    date := r.date }

/-- PUT /stock/edit/{stock_id} (src/main.py lines 207-226). -/
def update_stock (fs : FS) (stock_id : String) (u : StockUpdate) :
    Except Err String × FS :=
  let p := load_stock_data fs
  match dget p.1 stock_id with
  | none => (.error .notFound, p.2)
  | some existing =>
      (.ok "Stock entry updated successfully",
       save_stock_data (dset p.1 stock_id (mergeStock existing u)) p.2)

/-- DELETE /stock/delete/{stock_id} (src/main.py lines 229-239). -/
def delete_stock (fs : FS) (stock_id : String) : Except Err String × FS :=
  let p := load_stock_data fs
  if dcontains p.1 stock_id then
    (.ok "Stock entry deleted successfully", save_stock_data (derase p.1 stock_id) p.2)
  else (.error .notFound, p.2)

/-- Parse an optional (hence nullable) string field of a create body:
absent and explicit JSON null both yield none, since the create dump stores
null for either; a present value must otherwise be a string. -/
def parseOptStr : Option JVal → Except Err (Option String)
  | none => .ok none
  | some JVal.jNull => .ok none
  | some (JVal.jStr s) => .ok (some s)
  | some _ => .error .validationError

/-- Parse a required string field; JSON null is rejected because the field
is not Optional. -/
def parseReqStr : Option JVal → Except Err String
  | some (JVal.jStr s) => .ok s
  | _ => .error .validationError

/-- Parse a required list-of-strings field.  Any list is accepted: the
List of str annotation carries no length constraint.  JSON null is rejected
because the field is not Optional. -/
def parseReqStrList : Option JVal → Except Err (List String)
  | some (JVal.jStrList xs) => .ok xs
  | _ => .error .validationError

/-- Parse an optional integer field of a create body with no bound (phone);
absent and explicit JSON null both yield none. -/
def parseOptInt : Option JVal → Except Err (Option Int)
  | none => .ok none
  | some JVal.jNull => .ok none
  | some (JVal.jInt n) => .ok (some n)
  | some _ => .error .validationError

/-- Parse a required number field constrained by gt=0 (price on create); an
integer coerces to float and JSON null is rejected. -/
def parseReqPos : Option JVal → Except Err Rat
  | some (JVal.jNum q) => if 0 < q then .ok q else .error .validationError
  | some (JVal.jInt n) => if 0 < n then .ok (n : Rat) else .error .validationError
  | _ => .error .validationError

/-- Parse a tri-state string field of an update body: absent, explicitly
null, or a string. -/
def parseSetStr : Option JVal → Except Err (Option (Option String))
  | none => .ok none
  | some JVal.jNull => .ok (some none)
  | some (JVal.jStr s) => .ok (some (some s))
  | some _ => .error .validationError

/-- Parse a tri-state list-of-strings field of an update body. -/
def parseSetStrList : Option JVal → Except Err (Option (Option (List String)))
  | none => .ok none
  | some JVal.jNull => .ok (some none)
  | some (JVal.jStrList xs) => .ok (some (some xs))
  | some _ => .error .validationError

/-- Parse a tri-state integer field of an update body with no bound (phone). -/
def parseSetInt : Option JVal → Except Err (Option (Option Int))
  | none => .ok none
  | some JVal.jNull => .ok (some none)
  | some (JVal.jInt n) => .ok (some (some n))
  | some _ => .error .validationError

/-- Parse a tri-state number field of an update body constrained by gt=0:
the bound applies only to a supplied number, so an explicit JSON null
passes; an integer coerces to float. -/
def parseSetPos : Option JVal → Except Err (Option (Option Rat))
  | none => .ok none
  | some JVal.jNull => .ok (some none)
  | some (JVal.jNum q) => if 0 < q then .ok (some (some q)) else .error .validationError
  | some (JVal.jInt n) => if 0 < n then .ok (some (some (n : Rat))) else .error .validationError
  | some _ => .error .validationError

/-- Parse a tri-state integer field of an update body constrained by gt=0
(quantity); an explicit JSON null passes. -/
def parseSetPosInt : Option JVal → Except Err (Option (Option Int))
  | none => .ok none
  | some JVal.jNull => .ok (some none)
  | some (JVal.jInt n) => if 0 < n then .ok (some (some n)) else .error .validationError
  | some _ => .error .validationError

/-- The fields declared by the Customer model. -/
def customerKeys : List String :=
  ["id", "name", "clothe", "size", "price", "phone", "date"]

/-- The fields declared by the CustomerUpdate model. -/
def customerUpdateKeys : List String :=
  ["name", "clothe", "size", "price", "phone"]

/-- The fields declared by the StockUpdate model. -/
def stockUpdateKeys : List String :=
  ["item", "quantity", "price"]

/-- pydantic validation of a JSON body against the Customer model: each
declared field is read from the body; keys outside the model are ignored
(the pydantic default is extra equals ignore). -/
def parseCustomer (b : List (String × JVal)) : Except Err Customer := do
  let id ← parseReqStr (dget b "id")
  let name ← parseOptStr (dget b "name")
  let clothe ← parseReqStrList (dget b "clothe")
  let size ← parseReqStr (dget b "size")
  let price ← parseReqPos (dget b "price")
  let phone ← parseOptInt (dget b "phone")
  let date ← parseOptStr (dget b "date")
  .ok { id := id, name := name, clothe := clothe, size := size,
        price := price, phone := phone, date := date }

/-- pydantic validation of a JSON body against the CustomerUpdate model. -/
def parseCustomerUpdate (b : List (String × JVal)) : Except Err CustomerUpdate := do
  let name ← parseSetStr (dget b "name")
  let clothe ← parseSetStrList (dget b "clothe")
  let size ← parseSetStr (dget b "size")
  let price ← parseSetPos (dget b "price")
  let phone ← parseSetInt (dget b "phone")
  .ok { name := name, clothe := clothe, size := size, price := price, phone := phone }

/-- pydantic validation of a JSON body against the StockUpdate model. -/
def parseStockUpdate (b : List (String × JVal)) : Except Err StockUpdate := do
  let item ← parseSetStr (dget b "item")
  let quantity ← parseSetPosInt (dget b "quantity")
  let price ← parseSetPos (dget b "price")
  .ok { item := item, quantity := quantity, price := price }

/-- POST /create on a raw JSON body: pydantic validates the body before the
handler runs; a validation failure never reaches the handler. -/
def create_customer_route (fs : FS) (b : List (String × JVal)) (now : String) :
    Except Err String × FS :=
  match parseCustomer b with
  | .error e => (.error e, fs)
  | .ok c => create_customer fs c now

/-- PUT /edit/{customer_id} on a raw JSON body. -/
def update_customer_route (fs : FS) (customer_id : String) (b : List (String × JVal)) :
    Except Err String × FS :=
  match parseCustomerUpdate b with
  | .error e => (.error e, fs)
  | .ok u => update_customer fs customer_id u

/-- PUT /stock/edit/{stock_id} on a raw JSON body. -/
def update_stock_route (fs : FS) (stock_id : String) (b : List (String × JVal)) :
    Except Err String × FS :=
  match parseStockUpdate b with
  | .error e => (.error e, fs)
  | .ok u => update_stock fs stock_id u

/-- Restriction of a raw body to a set of declared field names. -/
def keepKeys (ks : List String) : List (String × JVal) → List (String × JVal)
  | [] => []
  | p :: rest => if p.1 ∈ ks then p :: keepKeys ks rest else keepKeys ks rest

/-- The customer records currently durable (empty when the file is missing). -/
def custRecords (fs : FS) : CMap :=
  fs.customers.getD []

/-- The stock records currently durable. -/
def stockRecords (fs : FS) : SMap :=
  fs.stock.getD []

/-- The durable states reachable through the operation layer from a fresh
deployment (no data files yet).  Request bodies reaching a handler have
passed pydantic validation, hence the valid* side conditions. -/
inductive Reach : FS → Prop where
  | init : Reach initFS
  | step_view (fs : FS) : Reach fs → Reach (view fs).2
  | step_view_customer (fs : FS) (cid : String) :
      Reach fs → Reach (view_customer fs cid).2
  | step_sort (fs : FS) (sb ord : String) :
      Reach fs → Reach (sort_customer fs sb ord).2
  | step_create (fs : FS) (c : Customer) (now : String) :
      Reach fs → validCustomer c = true → Reach (create_customer fs c now).2
  | step_update (fs : FS) (cid : String) (u : CustomerUpdate) :
      Reach fs → validCustomerUpdate u = true → Reach (update_customer fs cid u).2
  | step_delete (fs : FS) (cid : String) :
      Reach fs → Reach (delete_customer fs cid).2
  | step_view_stock (fs : FS) : Reach fs → Reach (view_stock fs).2
  | step_view_stock_entry (fs : FS) (sid : String) :
      Reach fs → Reach (view_stock_entry fs sid).2
  | step_create_stock (fs : FS) (s : Stock) :
      Reach fs → validStock s = true → Reach (create_stock fs s).2
  | step_update_stock (fs : FS) (sid : String) (u : StockUpdate) :
      Reach fs → validStockUpdate u = true → Reach (update_stock fs sid u).2
  | step_delete_stock (fs : FS) (sid : String) :
      Reach fs → Reach (delete_stock fs sid).2

theorem dget_dset_self {α : Type} (m : List (String × α)) (k : String) (v : α) :
    dget (dset m k v) k = some v := by
  induction m with
  | nil => simp [dget, dset]
  | cons p rest ih =>
    by_cases h : p.1 = k
    · simp [dset, dget, h]
    · simp [dset, dget, h, ih]

theorem dget_dset_ne {α : Type} (m : List (String × α)) (k kk : String) (v : α)
    (h : kk ≠ k) : dget (dset m k v) kk = dget m kk := by
  have hk : ¬(k = kk) := fun hh => h hh.symm
  induction m with
  | nil => simp [dget, dset, hk]
  | cons p rest ih =>
    obtain ⟨p1, p2⟩ := p
    by_cases hp : p1 = k
    · subst hp
      simp [dset, dget, hk]
    · by_cases hq : p1 = kk
      · subst hq
        simp [dset, dget, hp]
      · simp [dset, dget, hp, hq, ih]

theorem mem_dset {α : Type} {m : List (String × α)} {k : String} {v : α}
    {p : String × α} (h : p ∈ dset m k v) : p = (k, v) ∨ p ∈ m := by
  induction m with
  | nil => simpa [dset] using h
  | cons q rest ih =>
    by_cases hq : q.1 = k
    · simp only [dset, hq, if_pos rfl] at h
      rcases List.mem_cons.mp h with h1 | h2
      · exact Or.inl h1
      · exact Or.inr (List.mem_cons_of_mem _ h2)
    · simp only [dset, if_neg hq] at h
      rcases List.mem_cons.mp h with h1 | h2
      · exact Or.inr (h1 ▸ List.mem_cons_self _ _)
      · rcases ih h2 with h3 | h4
        · exact Or.inl h3
        · exact Or.inr (List.mem_cons_of_mem _ h4)

theorem mem_derase {α : Type} {m : List (String × α)} {k : String}
    {p : String × α} (h : p ∈ derase m k) : p ∈ m := by
  induction m with
  | nil => simpa [derase] using h
  | cons q rest ih =>
    by_cases hq : q.1 = k
    · simp only [derase, if_pos hq] at h
      exact List.mem_cons_of_mem _ h
    · simp only [derase, if_neg hq] at h
      rcases List.mem_cons.mp h with h1 | h2
      · exact h1 ▸ List.mem_cons_self _ _
      · exact List.mem_cons_of_mem _ (ih h2)

theorem dget_mem {α : Type} {m : List (String × α)} {k : String} {v : α}
    (h : dget m k = some v) : (k, v) ∈ m := by
  induction m with
  | nil => simp [dget] at h
  | cons q rest ih =>
    obtain ⟨q1, q2⟩ := q
    by_cases hq : q1 = k
    · subst hq
      have h2 : q2 = v := by simpa [dget] using h
      subst h2
      exact List.mem_cons_self _ _
    · simp only [dget, if_neg hq] at h
      exact List.mem_cons_of_mem _ (ih h)

theorem load_data_fst {fs : FS} {p : String × CustomerRecord}
    (h : p ∈ (load_data fs).1) : p ∈ custRecords fs := by
  cases hc : fs.customers <;> simp_all [load_data, custRecords, hc]

theorem load_data_snd_customers (fs : FS) :
    (load_data fs).2.customers = some (load_data fs).1 := by
  cases hc : fs.customers <;> simp [load_data, save_data, hc]

theorem load_data_snd_stock (fs : FS) : (load_data fs).2.stock = fs.stock := by
  cases hc : fs.customers <;> simp [load_data, save_data, hc]

theorem load_stock_data_fst {fs : FS} {p : String × StockRecord}
    (h : p ∈ (load_stock_data fs).1) : p ∈ stockRecords fs := by
  cases hc : fs.stock <;> simp_all [load_stock_data, stockRecords, hc]

theorem load_stock_data_snd_stock (fs : FS) :
    (load_stock_data fs).2.stock = some (load_stock_data fs).1 := by
  cases hc : fs.stock <;> simp [load_stock_data, save_stock_data, hc]

theorem load_stock_data_snd_customers (fs : FS) :
    (load_stock_data fs).2.customers = fs.customers := by
  cases hc : fs.stock <;> simp [load_stock_data, save_stock_data, hc]

theorem view_customer_snd (fs : FS) (cid : String) :
    (view_customer fs cid).2 = (load_data fs).2 := by
  simp only [view_customer]
  cases dget (load_data fs).1 cid <;> rfl

theorem view_stock_entry_snd (fs : FS) (sid : String) :
    (view_stock_entry fs sid).2 = (load_stock_data fs).2 := by
  simp only [view_stock_entry]
  cases dget (load_stock_data fs).1 sid <;> rfl

instance : IsTotal CustomerRecord ascRel :=
  ⟨fun a b => le_total (priceKey a) (priceKey b)⟩

instance : IsTrans CustomerRecord ascRel :=
  ⟨fun _ _ _ hab hbc => le_trans hab hbc⟩

instance : IsTotal CustomerRecord descRel :=
  ⟨fun a b => (le_total (priceKey b) (priceKey a)).imp id id⟩

instance : IsTrans CustomerRecord descRel :=
  ⟨fun _ _ _ hab hbc => le_trans hbc hab⟩

theorem dget_keepKeys (ks : List String) (b : List (String × JVal)) (k : String)
    (hk : k ∈ ks) : dget (keepKeys ks b) k = dget b k := by
  induction b with
  | nil => rfl
  | cons p rest ih =>
    obtain ⟨k1, v1⟩ := p
    by_cases h1 : k1 ∈ ks
    · by_cases h2 : k1 = k <;> simp [keepKeys, dget, h1, h2, hk, ih]
    · have h2 : ¬k1 = k := fun hh => h1 (hh ▸ hk)
      simp [keepKeys, dget, h1, h2, ih]

theorem parseCustomerUpdate_keepKeys (b : List (String × JVal)) :
    parseCustomerUpdate (keepKeys customerUpdateKeys b) = parseCustomerUpdate b := by
  unfold parseCustomerUpdate
  rw [dget_keepKeys _ _ _ (by simp [customerUpdateKeys]),
    dget_keepKeys _ _ _ (by simp [customerUpdateKeys]),
    dget_keepKeys _ _ _ (by simp [customerUpdateKeys]),
    dget_keepKeys _ _ _ (by simp [customerUpdateKeys]),
    dget_keepKeys _ _ _ (by simp [customerUpdateKeys])]

theorem parseStockUpdate_keepKeys (b : List (String × JVal)) :
    parseStockUpdate (keepKeys stockUpdateKeys b) = parseStockUpdate b := by
  unfold parseStockUpdate
  rw [dget_keepKeys _ _ _ (by simp [stockUpdateKeys]),
    dget_keepKeys _ _ _ (by simp [stockUpdateKeys]),
    dget_keepKeys _ _ _ (by simp [stockUpdateKeys])]

theorem stockRecords_load (fs : FS) :
    stockRecords (load_stock_data fs).2 = stockRecords fs := by
  cases hc : fs.stock <;> simp [load_stock_data, save_stock_data, stockRecords, hc]

/-- A stored customer record with price 30, used as concrete test data. -/
def rec30 : CustomerRecord :=
  { name := none, clothe := some ["shirt"], size := some "M", price := some 30,
    phone := none, date := "2024-01-01 10:00:00" }

/-- A durable state with a single customer c001. -/
def fsOne : FS := ⟨some [("c001", rec30)], none⟩

/-- A valid customer create body. -/
def cust1 : Customer :=
  { id := "c001", name := none, clothe := ["shirt"], size := "M", price := 20,
    phone := none, date := none }

/-- A partial update body setting only the price, to the number 25. -/
def upd1 : CustomerUpdate := { price := some (some 25) }

/-- The update body whose price is explicit JSON null: pydantic accepts it
(the gt=0 bound applies only to the number branch of the nullable schema)
and counts price as set, so exclude_unset dumps it. -/
def nullPriceUpd : CustomerUpdate := { price := some none }

/-- The durable state reached from a fresh deployment by creating customer
c001 (price 20) and then updating it with the body whose price is JSON
null. -/
def fsNullPrice : FS :=
  (update_customer (create_customer initFS cust1 "t").2 "c001" nullPriceUpd).2

/-- A valid stock create body. -/
def stock1 : Stock := { item := "shirt", quantity := 2, price := 10, date := none }

/-- C1: the claimed behaviour of stock create (Conflict when the identifier
exists, otherwise insert the body under the identifier with the identifier
excluded, saveAll, success) never happens in the code: the Stock model
declares no id field, so the handler raises AttributeError at stock.id for
every request, right after loading the file and before the duplicate check;
no record is ever inserted and the stored stock records are unchanged. -/
theorem c1_create_stock_always_raises_attribute_error (fs : FS) (s : Stock) :
    (create_stock fs s).1 = .error .attributeError ∧
    stockRecords (create_stock fs s).2 = stockRecords fs ∧
    (create_stock fs s).2.customers = fs.customers := by
  refine ⟨rfl, ?_, ?_⟩
  · exact stockRecords_load fs
  · exact load_stock_data_snd_customers fs

/-- C5: for customers, create with an identifier already present fails with
Conflict and returns the durable state exactly as it was (nothing saved, no
record touched).  For stock, the claim fails: create never reports Conflict
because it always raises AttributeError first (the Stock model has no id
field); the stock records are still left unchanged. -/
theorem c5_duplicate_create (fs : FS) (c : Customer) (now : String) (s : Stock)
    (hdup : dcontains (load_data fs).1 c.id = true) :
    create_customer fs c now = (.error .conflict, fs) ∧
    (create_stock fs s).1 = .error .attributeError ∧
    (create_stock fs s).1 ≠ .error .conflict ∧
    stockRecords (create_stock fs s).2 = stockRecords fs := by
  refine ⟨?_, rfl, by simp [create_stock], stockRecords_load fs⟩
  cases hcs : fs.customers with
  | none => simp [load_data, hcs, save_data, dcontains, dget] at hdup
  | some d =>
    have h1 : dcontains d c.id = true := by simpa [load_data, hcs] using hdup
    simp [create_customer, load_data, hcs, h1]

/-- C5 witness: create of a duplicate c001 on a one-customer store reports
Conflict and leaves the state untouched; stock create raises AttributeError
and is never Conflict. -/
theorem c5_duplicate_create_witness :
    create_customer fsOne cust1 "t" = (.error .conflict, fsOne) ∧
    (create_stock fsOne stock1).1 = .error .attributeError ∧
    (create_stock fsOne stock1).1 ≠ .error .conflict ∧
    stockRecords (create_stock fsOne stock1).2 = stockRecords fsOne :=
  c5_duplicate_create fsOne cust1 "t" stock1 (by decide)

/-- C8: loadAll after saveAll returns exactly the saved mapping (and the
saved state), for both collections; consequently load, save back unchanged,
load again is the identity on the mapping. -/
theorem c8_save_load_roundtrip (fs : FS) (m : CMap) (ms : SMap) :
    load_data (save_data m fs) = (m, save_data m fs) ∧
    load_stock_data (save_stock_data ms fs) = (ms, save_stock_data ms fs) ∧
    (load_data (save_data (load_data fs).1 (load_data fs).2)).1 = (load_data fs).1 ∧
    (load_stock_data (save_stock_data (load_stock_data fs).1 (load_stock_data fs).2)).1 =
      (load_stock_data fs).1 :=
  ⟨rfl, rfl, rfl, rfl⟩

/-- C9: fields of an update body outside the declared update schema (id,
date, or any unknown name) are silently ignored: restricting the body to the
declared keys changes neither the parse result nor the whole endpoint
behaviour, so unknown fields never cause a failure and are never merged into
the stored record (whose shape has only the declared fields). -/
theorem c9_unknown_update_fields_dropped (fs : FS) (cid sid : String)
    (b : List (String × JVal)) :
    parseCustomerUpdate (keepKeys customerUpdateKeys b) = parseCustomerUpdate b ∧
    update_customer_route fs cid (keepKeys customerUpdateKeys b) =
      update_customer_route fs cid b ∧
    parseStockUpdate (keepKeys stockUpdateKeys b) = parseStockUpdate b ∧
    update_stock_route fs sid (keepKeys stockUpdateKeys b) =
      update_stock_route fs sid b := by
  refine ⟨parseCustomerUpdate_keepKeys b, ?_, parseStockUpdate_keepKeys b, ?_⟩
  · unfold update_customer_route
    rw [parseCustomerUpdate_keepKeys b]
  · unfold update_stock_route
    rw [parseStockUpdate_keepKeys b]

/-- C10: the collections are independent: every customer operation leaves
the durable stock file unchanged and every stock operation leaves the
durable customer file unchanged. -/
theorem c10_collections_independent (fs : FS) (cid sid sb ord now : String)
    (c : Customer) (u : CustomerUpdate) (s : Stock) (us : StockUpdate) :
    (view fs).2.stock = fs.stock ∧
    (view_customer fs cid).2.stock = fs.stock ∧
    (sort_customer fs sb ord).2.stock = fs.stock ∧
    (create_customer fs c now).2.stock = fs.stock ∧
    (update_customer fs cid u).2.stock = fs.stock ∧
    (delete_customer fs cid).2.stock = fs.stock ∧
    (view_stock fs).2.customers = fs.customers ∧
    (view_stock_entry fs sid).2.customers = fs.customers ∧
    (create_stock fs s).2.customers = fs.customers ∧
    (update_stock fs sid us).2.customers = fs.customers ∧
    (delete_stock fs sid).2.customers = fs.customers := by
  refine ⟨load_data_snd_stock fs, ?_, ?_, ?_, ?_, ?_,
    load_stock_data_snd_customers fs, ?_, load_stock_data_snd_customers fs, ?_, ?_⟩
  · rw [view_customer_snd]
    exact load_data_snd_stock fs
  · unfold sort_customer
    split
    · rfl
    · split
      · rfl
      · exact load_data_snd_stock fs
  · unfold create_customer
    by_cases hc : dcontains (load_data fs).1 c.id = true
    · simp [hc, load_data_snd_stock]
    · simp [hc, save_data, load_data_snd_stock]
  · unfold update_customer
    cases hd : dget (load_data fs).1 cid <;> simp [hd, save_data, load_data_snd_stock]
  · unfold delete_customer
    by_cases hc : dcontains (load_data fs).1 cid = true
    · simp [hc, save_data, load_data_snd_stock]
    · simp [hc, load_data_snd_stock]
  · rw [view_stock_entry_snd]
    exact load_stock_data_snd_customers fs
  · unfold update_stock
    cases hd : dget (load_stock_data fs).1 sid <;>
      simp [hd, save_stock_data, load_stock_data_snd_customers]
  · unfold delete_stock
    by_cases hc : dcontains (load_stock_data fs).1 sid = true
    · simp [hc, save_stock_data, load_stock_data_snd_customers]
    · simp [hc, load_stock_data_snd_customers]

/-- C2: the claimed invariant fails in the code.  pydantic accepts an
update body whose price is explicit JSON null, because the gt=0 bound
constrains only the number branch of the nullable field;
model_dump(exclude_unset=True) dumps the explicitly set null, and the merge
loop stores it.  So, from a fresh deployment, creating customer c001 with
price 20 and then updating it with the body carrying price null reaches a
durable state whose stored record for c001 has no positive price.  The
theorem exhibits: the raw body parsing to that accepted update, the update
passing validation, the resulting state being reachable through the
operation layer, the stored record carrying a null price, and the negation
of the claimed invariant at that reachable state. -/
theorem c2_null_price_update_breaks_invariant :
    parseCustomerUpdate [("price", JVal.jNull)] = .ok nullPriceUpd ∧
    validCustomerUpdate nullPriceUpd = true ∧
    Reach fsNullPrice ∧
    dget (custRecords fsNullPrice) "c001" =
      some { name := none, clothe := some ["shirt"], size := some "M",
             price := none, phone := none, date := "t" } ∧
    ¬(∀ p ∈ custRecords fsNullPrice, ∃ q, p.2.price = some q ∧ 0 < q) := by
  refine ⟨rfl, rfl, ?_, rfl, ?_⟩
  · exact Reach.step_update (create_customer initFS cust1 "t").2 "c001" nullPriceUpd
      (Reach.step_create initFS cust1 "t" Reach.init (by decide)) (by decide)
  · intro hall
    obtain ⟨q, hq, hpos⟩ := hall ("c001",
      { name := none, clothe := some ["shirt"], size := some "M",
        price := none, phone := none, date := "t" }) (by decide)
    simp at hq

/-- C3: on an existing record, update succeeds and a following getOne shows
the merged record: each supplied field holds exactly the supplied value (a
field supplied as JSON null is set to that null), each absent field keeps
its previous value, the creation timestamp is untouched, every other
identifier still resolves as before, and the empty partial body leaves the
record unchanged. -/
theorem c3_update_frame (fs : FS) (cid k : String) (u : CustomerUpdate)
    (r : CustomerRecord) (hr : dget (load_data fs).1 cid = some r)
    (hk : k ≠ cid) :
    (update_customer fs cid u).1 = .ok "Customer updated successfully" ∧
    (view_customer (update_customer fs cid u).2 cid).1 = .ok (mergeCustomer r u) ∧
    (mergeCustomer r u).name = u.name.getD r.name ∧
    (mergeCustomer r u).clothe = u.clothe.getD r.clothe ∧
    (mergeCustomer r u).size = u.size.getD r.size ∧
    (mergeCustomer r u).price = u.price.getD r.price ∧
    (mergeCustomer r u).phone = u.phone.getD r.phone ∧
    (mergeCustomer r u).date = r.date ∧
    (view_customer (update_customer fs cid u).2 k).1 = (view_customer fs k).1 ∧
    (u = {} → mergeCustomer r u = r) := by
  have h2 : (update_customer fs cid u).2 =
      save_data (dset (load_data fs).1 cid (mergeCustomer r u)) (load_data fs).2 := by
    simp [update_customer, hr]
  refine ⟨by simp [update_customer, hr], ?_, ?_, ?_, ?_, ?_, ?_, rfl, ?_, ?_⟩
  · rw [h2]
    simp [view_customer, load_data, save_data, dget_dset_self]
  · cases hn : u.name <;> simp [mergeCustomer, hn]
  · cases hn : u.clothe <;> simp [mergeCustomer, hn]
  · cases hn : u.size <;> simp [mergeCustomer, hn]
  · cases hn : u.price <;> simp [mergeCustomer, hn]
  · cases hn : u.phone <;> simp [mergeCustomer, hn]
  · rw [h2]
    have hD : dget (dset (load_data fs).1 cid (mergeCustomer r u)) k =
        dget (load_data fs).1 k := dget_dset_ne _ _ _ _ hk
    have hLS : ∀ d x, load_data (save_data d x) = (d, save_data d x) := fun _ _ => rfl
    cases hdk : dget (load_data fs).1 k with
    | none => simp [view_customer, hLS, hD, hdk]
    | some rr => simp [view_customer, hLS, hD, hdk]
  · intro he
    subst he
    rfl

/-- C3 witness: updating only the price of customer c001 in a one-customer
store, then reading it back. -/
theorem c3_update_frame_witness :
    (update_customer fsOne "c001" upd1).1 = .ok "Customer updated successfully" ∧
    (view_customer (update_customer fsOne "c001" upd1).2 "c001").1 =
      .ok (mergeCustomer rec30 upd1) ∧
    (mergeCustomer rec30 upd1).name = upd1.name.getD rec30.name ∧
    (mergeCustomer rec30 upd1).clothe = upd1.clothe.getD rec30.clothe ∧
    (mergeCustomer rec30 upd1).size = upd1.size.getD rec30.size ∧
    (mergeCustomer rec30 upd1).price = upd1.price.getD rec30.price ∧
    (mergeCustomer rec30 upd1).phone = upd1.phone.getD rec30.phone ∧
    (mergeCustomer rec30 upd1).date = rec30.date ∧
    (view_customer (update_customer fsOne "c001" upd1).2 "c002").1 =
      (view_customer fsOne "c002").1 ∧
    (upd1 = {} → mergeCustomer rec30 upd1 = rec30) :=
  c3_update_frame fsOne "c001" "c002" upd1 rec30 rfl (by decide)

/-- C4: creating a fresh valid customer succeeds, and getOne on its
identifier returns exactly the input fields with the server-assigned date in
place of the requested one; the stored body has no identifier field. -/
theorem c4_create_then_get (fs : FS) (c : Customer) (now : String)
    (hv : validCustomer c = true)
    (hfresh : dcontains (load_data fs).1 c.id = false) :
    (create_customer fs c now).1 = .ok "CUSTOMER CREATED SUCCESSFULLY!!" ∧
    (view_customer (create_customer fs c now).2 c.id).1 =
      .ok { name := c.name, clothe := some c.clothe, size := some c.size,
            price := some c.price, phone := c.phone, date := now } := by
  have h2 : (create_customer fs c now).2 =
      save_data (dset (load_data fs).1 c.id (customerToRecord c now)) (load_data fs).2 := by
    simp [create_customer, hfresh]
  refine ⟨by simp [create_customer, hfresh], ?_⟩
  rw [h2]
  simp [view_customer, load_data, save_data, dget_dset_self, customerToRecord]

/-- C4 witness: creating customer c001 on a fresh deployment and reading it
back. -/
theorem c4_create_then_get_witness :
    (create_customer initFS cust1 "t").1 = .ok "CUSTOMER CREATED SUCCESSFULLY!!" ∧
    (view_customer (create_customer initFS cust1 "t").2 cust1.id).1 =
      .ok { name := cust1.name, clothe := some cust1.clothe, size := some cust1.size,
            price := some cust1.price, phone := cust1.phone, date := "t" } :=
  c4_create_then_get initFS cust1 "t" (by decide) rfl

/-- A raw customer create body whose clothe field is the empty list and
whose other required fields are valid. -/
def emptyClotheBody : List (String × JVal) :=
  [("id", JVal.jStr "c001"), ("clothe", JVal.jStrList []),
   ("size", JVal.jStr "M"), ("price", JVal.jNum 20)]

/-- C6 counterexample: the claim says a create body with an empty garment
list fails with ValidationError and nothing is inserted; in the code the
List of str annotation has no non-empty constraint, so this body passes
validation, the create succeeds, and the record is stored with an empty
clothe list. -/
theorem c6_counterexample :
    (create_customer_route initFS emptyClotheBody "t").1 =
      .ok "CUSTOMER CREATED SUCCESSFULLY!!" ∧
    dget (custRecords (create_customer_route initFS emptyClotheBody "t").2) "c001" =
      some { name := none, clothe := some [], size := some "M", price := some 20,
             phone := none, date := "t" } := by
  constructor <;> rfl

/-- C6 amended: a customer create body whose garment list is empty (other
fields valid) is accepted: validation passes, the create succeeds, and the
record is inserted with its empty list. -/
theorem c6_empty_clothe_accepted (fs : FS) (c : Customer) (now : String)
    (hempty : c.clothe = []) (hv : validCustomer c = true)
    (hfresh : dcontains (load_data fs).1 c.id = false) :
    (create_customer fs c now).1 = .ok "CUSTOMER CREATED SUCCESSFULLY!!" ∧
    dget (custRecords (create_customer fs c now).2) c.id =
      some { name := c.name, clothe := some [], size := some c.size,
             price := some c.price, phone := c.phone, date := now } := by
  have h2 : (create_customer fs c now).2 =
      save_data (dset (load_data fs).1 c.id (customerToRecord c now)) (load_data fs).2 := by
    simp [create_customer, hfresh]
  refine ⟨by simp [create_customer, hfresh], ?_⟩
  rw [h2]
  simp [custRecords, save_data, dget_dset_self, customerToRecord, hempty]

/-- C6 witness: a concrete customer with an empty garment list is created on
a fresh deployment. -/
theorem c6_empty_clothe_accepted_witness :
    (create_customer initFS
        { id := "c001", name := none, clothe := [], size := "M", price := 20,
          phone := none, date := none } "t").1 =
      .ok "CUSTOMER CREATED SUCCESSFULLY!!" ∧
    dget (custRecords (create_customer initFS
        { id := "c001", name := none, clothe := [], size := "M", price := 20,
          phone := none, date := none } "t").2) "c001" =
      some { name := none, clothe := some [], size := some "M", price := some 20,
             phone := none, date := "t" } :=
  c6_empty_clothe_accepted initFS _ "t" rfl (by decide) rfl

